import Mathlib

/-!
Verification of the smolpaste paste-hosting service (src/main.rs) against its
specification.  The Rust handlers `new_paste`, `delete_paste` and the helper
`stream_to_file` are shallowly embedded as pure Lean functions over explicit
database and filesystem states; external effects (SQL query outcomes, the
incoming multipart byte stream, the generated UUID, the clock) are passed in
as parameters.
-/

/-- Outcomes of a sqlx query that the handlers distinguish:
`rowNotFound` is `sqlx::Error::RowNotFound`; `other` stands for every other
`sqlx::Error` (all of which the handlers treat alike via the catch-all arm). -/
inductive DbError where
  | rowNotFound
  | other
deriving DecidableEq

/-- A row of the `pastes` table: `(size, filename, timestamp)`; the `id`
column is kept as the key of the association list in `DbState`.
`size` is a `u32` in Rust, modelled as a `Nat` that the code stores
reduced mod `2 ^ 32`. -/
structure PasteRow where
  size : Nat
  filename : String
  timestamp : Int
deriving DecidableEq

/-- Database state: the `tokens` table (only its `value` column matters to the
handlers) and the `pastes` table keyed by the `id` column. -/
structure DbState where
  tokens : List String
  pastes : List (String × PasteRow)
deriving DecidableEq

/-- Filesystem state of the `pastes` storage directory: an association list
from filename to file contents (bytes as naturals). -/
structure FsState where
  files : List (String × List Nat)
deriving DecidableEq

/-- The result of `SELECT COUNT(*) FROM tokens WHERE value = $1`. -/
def countToken (tokens : List String) (t : String) : Int :=
  ((tokens.filter (fun v => v == t)).length : Int)

/-- The token-check match shared verbatim by `new_paste` (main.rs:140-145) and
`delete_paste` (main.rs:206-211):
`Ok(1)` proceeds, `Ok(0)` and `Err(RowNotFound)` return 401, and the
catch-all arm `_` (covering `Ok(n)` for any other `n` as well as every other
error) returns 500.  `none` means "authorized, proceed"; `some s` means
"return status `s` at once". -/
def authorize : Except DbError Int → Option Nat
  | .ok n => if n = 1 then none else if n = 0 then some 401 else some 500
  | .error .rowNotFound => some 401
  | .error .other => some 500

/-- Lowercase hex digit, as produced by Rust's `LowerHex` formatting used by
`uuid::fmt::Hyphenated`. -/
def hexDigitChar (n : Nat) : Char :=
  if n < 10 then Char.ofNat (48 + n) else Char.ofNat (87 + n)

/-- The 32 hex digits of a 128-bit UUID value, most significant nibble first. -/
def uuidHexDigits (u : Nat) : List Char :=
  (List.range 32).map (fun i => hexDigitChar (u / 16 ^ (31 - i) % 16))

/-- Canonical rendering of a UUID as produced by `Uuid`'s `Display`
implementation (`format!("{}", id)` in main.rs:160/163): 32 lowercase hex
digits in groups of 8-4-4-4-12 separated by hyphens. -/
def uuidToString (u : Nat) : String :=
  let d := uuidHexDigits u
  String.mk
    (d.take 8 ++ '-' :: (d.drop 8).take 4 ++ '-' :: (d.drop 12).take 4 ++
      '-' :: (d.drop 16).take 4 ++ '-' :: d.drop 20)

/-- Split a path string on `'/'` (Unix separator), as `std::path` does. -/
def splitSlash : List Char → List (List Char)
  | [] => [[]]
  | c :: cs =>
    let r := splitSlash cs
    if c = '/' then [] :: r
    else
      match r with
      | [] => [[c]]
      | h :: t => (c :: h) :: t

/-- `std::path::Path::file_name`: the last normal component of the path.
Empty components (from repeated or trailing separators, or a root prefix) and
`"."` components are skipped by the component iterator; a final `".."`
component (or no component at all) yields `None`. -/
def fileName (p : List Char) : Option (List Char) :=
  let comps := (splitSlash p).filter (fun c => ¬(c = [] ∨ c = ['.']))
  match comps.getLast? with
  | none => none
  | some c => if c = ['.', '.'] then none else some c

/-- Index of the last `'.'` in a character list, if any (the `rposition` of
Rust's `split_file_at_dot`). -/
def lastDotIdx : List Char → Option Nat
  | [] => none
  | c :: cs =>
    match lastDotIdx cs with
    | some i => some (i + 1)
    | none => if c = '.' then some 0 else none

/-- Rust's `split_file_at_dot` applied to a file name: the extension is the
part after the last `'.'` that occurs at position ≥ 1; a file name that is
exactly `".."`, has no dot past position 0, or is a bare dotfile such as
`".gitignore"`, has no extension. -/
def splitFileAtDot (f : List Char) : Option (List Char) :=
  if f = ['.', '.'] then none
  else
    match lastDotIdx (f.drop 1) with
    | none => none
    | some i => some (f.drop (i + 2))

/-- `std::path::Path::extension`: extension of the file name, if any. -/
def pathExtension (p : List Char) : Option (List Char) :=
  (fileName p).bind splitFileAtDot

/-- The stored-filename computation of `new_paste` (main.rs:158-164):
`format!("{}.{}", id, e)` when the upload name has an extension, plain
`format!("{}", id)` otherwise.  (The Rust code also answers 400 when the
extension is not valid UTF-8; names here are already text, so that branch
cannot fire.) -/
def makeFilename (idStr : String) (uploadName : String) : String :=
  match pathExtension uploadName.data with
  | some e => idStr ++ "." ++ String.mk e
  | none => idStr

/-- Look a filename up in the storage directory. -/
def fsLookup (fs : FsState) (name : String) : Option (List Nat) :=
  (fs.files.find? (fun p => p.1 == name)).map (fun p => p.2)

/-- Create-or-replace a file: `tokio::fs::File::create` semantics ("will
create a file if it does not exist, and will truncate it if it does") — the
open never fails merely because the target exists. -/
def fsInsert (fs : FsState) (name : String) (content : List Nat) : FsState :=
  ⟨(name, content) :: fs.files.filter (fun p => ¬(p.1 == name))⟩

/-- `tokio::fs::remove_file`: fails when the file is absent. -/
def removeFile (fs : FsState) (name : String) : Except Unit FsState :=
  if (fsLookup fs name).isSome then
    .ok ⟨fs.files.filter (fun p => ¬(p.1 == name))⟩
  else .error ()

/-- One item of the multipart body stream: a chunk of bytes, or a transport
error (`Result<Bytes, E>` in `stream_to_file`'s bound). -/
abbrev Chunk := Except Unit (List Nat)

/-- The copy loop of `tokio::io::copy` reading the `StreamReader`: bytes are
appended until end-of-stream or the first errored chunk.  Returns the bytes
written and whether the copy completed.  (The `BufWriter` batches writes below
this model's chunk granularity; the model records the bytes handed to the
writer before the failure.) -/
def copyChunks : List Chunk → List Nat → List Nat × Bool
  | [], acc => (acc, true)
  | .error _ :: _, acc => (acc, false)
  | .ok b :: rest, acc => copyChunks rest (acc ++ b)

/-- `stream_to_file` (main.rs:230-251): create the file under the pastes
directory (truncating any existing one), copy the stream into it, and return
`total as u32`, i.e. the byte count reduced mod `2 ^ 32`.  On a stream error
the partly written file stays in place; nothing removes it. -/
def stream_to_file (fs : FsState) (path : String) (chunks : List Chunk) :
    Except Unit Nat × FsState :=
  let res := copyChunks chunks []
  let fs2 := fsInsert fs path res.1
  if res.2 then (.ok (res.1.length % 2 ^ 32), fs2) else (.error (), fs2)

/-- The parts of a `/new` request the handler consumes: the `token` query
parameter and the first multipart field — `none` when there is no field or
multipart parsing fails, otherwise the field's `filename` attribute (absent ⇒
`none`) and its body stream. -/
structure NewReq where
  token : String
  field : Option (Option String × List Chunk)

/-- Outcome of a sqlx query: the computed value when the query engine
succeeds (`err = none`), or the injected failure. -/
def queryResult (err : Option DbError) (n : Int) : Except DbError Int :=
  match err with
  | none => .ok n
  | some e => .error e

/-- The `new_paste` handler (main.rs:131-195).  `authErr` injects a failure of
the token-count query (`none` = the query runs and returns the count),
`insertOk` the success of the `INSERT INTO pastes`; `id` is the freshly
generated v4 UUID value and `now` the clock reading.  Returns the HTTP
outcome (`.ok body` = 200, `.error s` = status s with empty body) together
with the database and filesystem after the request. -/
def new_paste (base : String) (db : DbState) (fs : FsState)
    (authErr : Option DbError) (insertOk : Bool) (req : NewReq) (id : Nat) (now : Int) :
    Except Nat String × DbState × FsState :=
  match authorize (queryResult authErr (countToken db.tokens req.token)) with
  | some s => (.error s, db, fs)
  | none =>
    match req.field with
    | none => (.error 400, db, fs)
    | some (fnameAttr, chunks) =>
      match fnameAttr with
      | none => (.error 400, db, fs)
      | some uploadName =>
        let filename := makeFilename (uuidToString id) uploadName
        match stream_to_file fs filename chunks with
        | (.error _, fs2) => (.error 500, db, fs2)
        | (.ok written, fs2) =>
          if insertOk then
            (.ok (base ++ "/paste/" ++ filename),
             { db with pastes := db.pastes ++ [(uuidToString id, ⟨written, filename, now⟩)] },
             fs2)
          else (.error 500, db, fs2)

/-- `DELETE FROM pastes WHERE id = $1 RETURNING filename` followed by
`fetch_one` (main.rs:213-220): one atomic round-trip that removes the row and
yields its `filename`, or `RowNotFound` (`none`) when no row matches. -/
def pop_paste_filename (pastes : List (String × PasteRow)) (id : String) :
    Option (String × List (String × PasteRow)) :=
  match pastes.find? (fun p => p.1 == id) with
  | none => none
  | some p => some (p.2.filename, pastes.filter (fun q => ¬(q.1 == id)))

/-- The `delete_paste` handler (main.rs:198-228).  `authErr` injects a
failure of the token-count query and `popOk` the success of the
delete-returning query (a `false` stands for a storage error other than
`RowNotFound`).  Returns the HTTP status (200 carries an empty body, as does
every error) with the resulting database and filesystem. -/
def delete_paste (db : DbState) (fs : FsState) (authErr : Option DbError) (popOk : Bool)
    (token id : String) : Nat × DbState × FsState :=
  match authorize (queryResult authErr (countToken db.tokens token)) with
  | some s => (s, db, fs)
  | none =>
    if popOk then
      match pop_paste_filename db.pastes id with
      | none => (404, db, fs)
      | some (fn, rest) =>
        match removeFile fs fn with
        | .error _ => (500, { db with pastes := rest }, fs)
        | .ok fs2 => (200, { db with pastes := rest }, fs2)
    else (500, db, fs)

/-- Modelled from the spec: `GET /paste/<filename>` is "delegated to a
static-file handler rooted at the storage directory" (`ServeDir`, an external
library); it serves the named file's bytes when present. -/
def servePaste (fs : FsState) (name : String) : Option (List Nat) :=
  fsLookup fs name

/-- Modelled from the spec: fetching a full URL against the service — when the
URL starts with `<base>/paste/`, the remainder names the file to serve. -/
def urlFetch (base : String) (fs : FsState) (url : String) : Option (List Nat) :=
  let pre := (base ++ "/paste/").data
  if url.data.take pre.length = pre then
    servePaste fs (String.mk (url.data.drop pre.length))
  else none

/-- The spec's own reading of "extension" in the claim under review: "the
characters after the final `.` in the basename", with no dotfile exception.
Stated from the spec's words, for comparison with `pathExtension`, which
follows the code via `std::path::Path::extension`. -/
def specTrailingExt (name : String) : Option String :=
  match fileName name.data with
  | none => none
  | some bs =>
    match lastDotIdx bs with
    | none => none
    | some i => some (String.mk (bs.drop (i + 1)))

/-- Where a delete request stands: before the token check, before the
delete-returning query, before the unlink (holding the filename the query
returned), or finished with an HTTP status. -/
inductive Phase where
  | atAuth
  | atPop
  | atUnlink (fn : String)
  | done (status : Nat)
deriving DecidableEq

/-- Joint state of two in-flight delete requests sharing the database and the
storage directory.  Each request suspends at every database and filesystem
await point (main.rs:204, 216, 225), so those are the atomic steps. -/
structure Conc where
  db : DbState
  fs : FsState
  t1 : Phase
  t2 : Phase
deriving DecidableEq

/-- One atomic step of a delete request: the token-count query, the
`DELETE … RETURNING filename` round-trip, or the unlink.  A finished request
makes no further change. -/
def stepThread (db : DbState) (fs : FsState) (token id : String) :
    Phase → DbState × FsState × Phase
  | .atAuth =>
    match authorize (.ok (countToken db.tokens token)) with
    | some s => (db, fs, .done s)
    | none => (db, fs, .atPop)
  | .atPop =>
    match pop_paste_filename db.pastes id with
    | none => (db, fs, .done 404)
    | some (fn, rest) => ({ db with pastes := rest }, fs, .atUnlink fn)
  | .atUnlink fn =>
    match removeFile fs fn with
    | .error _ => (db, fs, .done 500)
    | .ok fs2 => (db, fs2, .done 200)
  | .done s => (db, fs, .done s)

/-- Scheduler step: `true` lets request 1 take its next atomic step, `false`
request 2. -/
def stepConc (token id : String) (c : Conc) (first : Bool) : Conc :=
  if first then
    let r := stepThread c.db c.fs token id c.t1
    ⟨r.1, r.2.1, r.2.2, c.t2⟩
  else
    let r := stepThread c.db c.fs token id c.t2
    ⟨r.1, r.2.1, c.t1, r.2.2⟩

/-- Run the two requests under an arbitrary interleaving schedule. -/
def runConc (token id : String) (c : Conc) : List Bool → Conc
  | [] => c
  | b :: bs => runConc token id (stepConc token id c b) bs

/-- A concrete paste row for the two-delete scenario. -/
def c9row : PasteRow := ⟨3, "f", 0⟩

/-- Initial state of the two-delete scenario: one valid token `"t"`, one paste
row `"i"` whose file `"f"` exists, both requests about to authenticate. -/
def c9init : Conc :=
  ⟨⟨["t"], [("i", c9row)]⟩, ⟨[("f", [1, 2, 3])]⟩, .atAuth, .atAuth⟩

/-- All states reachable from `c9init` under any schedule. -/
def c9reach : List Conc :=
  let d1 : DbState := ⟨["t"], [("i", c9row)]⟩
  let d0 : DbState := ⟨["t"], []⟩
  let f1 : FsState := ⟨[("f", [1, 2, 3])]⟩
  let f0 : FsState := ⟨[]⟩
  [⟨d1, f1, .atAuth, .atAuth⟩,
   ⟨d1, f1, .atPop, .atAuth⟩, ⟨d1, f1, .atAuth, .atPop⟩,
   ⟨d1, f1, .atPop, .atPop⟩,
   ⟨d0, f1, .atUnlink "f", .atAuth⟩, ⟨d0, f1, .atAuth, .atUnlink "f"⟩,
   ⟨d0, f1, .atUnlink "f", .atPop⟩, ⟨d0, f1, .atPop, .atUnlink "f"⟩,
   ⟨d0, f1, .atUnlink "f", .done 404⟩, ⟨d0, f1, .done 404, .atUnlink "f"⟩,
   ⟨d0, f0, .done 200, .atAuth⟩, ⟨d0, f0, .atAuth, .done 200⟩,
   ⟨d0, f0, .done 200, .atPop⟩, ⟨d0, f0, .atPop, .done 200⟩,
   ⟨d0, f0, .done 200, .done 404⟩, ⟨d0, f0, .done 404, .done 200⟩]

/-! ## Helper lemmas -/

theorem countToken_eq_zero (ts : List String) (t : String) (h : t ∉ ts) :
    countToken ts t = 0 := by
  unfold countToken
  have hf : ts.filter (fun v => v == t) = [] := by
    rw [List.filter_eq_nil_iff]
    intro a ha
    simp only [beq_iff_eq]
    exact fun e => h (e ▸ ha)
  simp [hf]

theorem fsLookup_fsInsert_self (fs : FsState) (n : String) (c : List Nat) :
    fsLookup (fsInsert fs n c) n = some c := by
  simp [fsLookup, fsInsert, List.find?]

theorem new_paste_ok_eq (base : String) (db : DbState) (fs : FsState)
    (req : NewReq) (id : Nat) (now : Int) (name : String) (chunks : List Chunk)
    (B : List Nat)
    (hc : countToken db.tokens req.token = 1)
    (hf : req.field = some (some name, chunks))
    (hB : copyChunks chunks [] = (B, true)) :
    new_paste base db fs none true req id now =
      (.ok (base ++ "/paste/" ++ makeFilename (uuidToString id) name),
       { db with pastes := db.pastes ++
           [(uuidToString id, ⟨B.length % 2 ^ 32, makeFilename (uuidToString id) name, now⟩)] },
       fsInsert fs (makeFilename (uuidToString id) name) B) := by
  unfold new_paste queryResult stream_to_file
  simp only [hc, hf, hB]
  rfl

theorem new_paste_err_eq (base : String) (db : DbState) (fs : FsState)
    (insertOk : Bool) (req : NewReq) (id : Nat) (now : Int) (name : String)
    (chunks : List Chunk) (B : List Nat)
    (hc : countToken db.tokens req.token = 1)
    (hf : req.field = some (some name, chunks))
    (hB : copyChunks chunks [] = (B, false)) :
    new_paste base db fs none insertOk req id now =
      (.error 500, db, fsInsert fs (makeFilename (uuidToString id) name) B) := by
  unfold new_paste queryResult stream_to_file
  simp only [hc, hf, hB]
  rfl

/-! ## C1 -/

/-- C1: the claim reads "file creation fails (the upload responds 500) rather
than silently overwriting the existing file: creation uses create-new
semantics".  The code calls `tokio::fs::File::create` (main.rs:244), which
truncates an existing file instead of failing.  Evidence at a concrete input:
with the file for UUID 0 already on disk holding `[1, 2, 3]`, the upload
succeeds with 200 and the file afterwards holds the new body `[9]`. -/
theorem c1_create_overwrites_existing :
    uuidToString 0 = "00000000-0000-0000-0000-000000000000" ∧
    fsLookup ⟨[("00000000-0000-0000-0000-000000000000", [1, 2, 3])]⟩
      "00000000-0000-0000-0000-000000000000" = some [1, 2, 3] ∧
    new_paste "b" ⟨["t"], []⟩ ⟨[("00000000-0000-0000-0000-000000000000", [1, 2, 3])]⟩
        none true ⟨"t", some (some "data", [.ok [9]])⟩ 0 0 =
      (.ok "b/paste/00000000-0000-0000-0000-000000000000",
       ⟨["t"], [("00000000-0000-0000-0000-000000000000",
          ⟨1, "00000000-0000-0000-0000-000000000000", 0⟩)]⟩,
       ⟨[("00000000-0000-0000-0000-000000000000", [9])]⟩) := by
  refine ⟨by decide, rfl, ?_⟩
  rfl

/-! ## C2 -/

/-- C2 (counterexample): the claim says duplicate token rows (count ≥ 2) make
the `count == 1` check fail "as 401".  With the token `"t"` present twice,
both handlers answer 500 (the catch-all `_` arm), not 401. -/
theorem c2_counterexample :
    new_paste "b" ⟨["t", "t"], []⟩ ⟨[]⟩ none true ⟨"t", none⟩ 0 0 =
      (.error 500, ⟨["t", "t"], []⟩, ⟨[]⟩) ∧
    delete_paste ⟨["t", "t"], []⟩ ⟨[]⟩ none true "t" "i" =
      (500, ⟨["t", "t"], []⟩, ⟨[]⟩) ∧
    (500 : Nat) ≠ 401 :=
  ⟨rfl, rfl, by decide⟩

/-- C2 (amended): the authorization outcome of `POST /new` and
`DELETE /delete` is a function of the token-count query: exactly one matching
row authorizes the request — the handler's result is then exactly that of the
post-gate continuation (multipart parsing, ingest and insert for `/new`; the
delete-returning query and unlink for `/delete`), never the gate's 401/500;
zero rows or a `RowNotFound` error yield 401 with nothing changed; a count
other than 0 or 1 (duplicate rows) and any other database error yield 500
with nothing changed. -/
theorem c2_token_gate (base : String) (db : DbState) (fs : FsState)
    (req : NewReq) (id : Nat) (now : Int) (token pid : String) :
    (countToken db.tokens req.token = 1 →
      new_paste base db fs none true req id now =
        match req.field with
        | none => (.error 400, db, fs)
        | some (fnameAttr, chunks) =>
          match fnameAttr with
          | none => (.error 400, db, fs)
          | some uploadName =>
            match stream_to_file fs (makeFilename (uuidToString id) uploadName) chunks with
            | (.error _, fs2) => (.error 500, db, fs2)
            | (.ok written, fs2) =>
              (.ok (base ++ "/paste/" ++ makeFilename (uuidToString id) uploadName),
               { db with pastes := db.pastes ++ [(uuidToString id,
                   ⟨written, makeFilename (uuidToString id) uploadName, now⟩)] },
               fs2)) ∧
    (countToken db.tokens token = 1 →
      delete_paste db fs none true token pid =
        match pop_paste_filename db.pastes pid with
        | none => (404, db, fs)
        | some (fn, rest) =>
          match removeFile fs fn with
          | .error _ => (500, { db with pastes := rest }, fs)
          | .ok fs2 => (200, { db with pastes := rest }, fs2)) ∧
    (countToken db.tokens req.token ≠ 1 →
      new_paste base db fs none true req id now =
        (.error (if countToken db.tokens req.token = 0 then 401 else 500), db, fs)) ∧
    (countToken db.tokens token ≠ 1 →
      delete_paste db fs none true token pid =
        (if countToken db.tokens token = 0 then 401 else 500, db, fs)) ∧
    new_paste base db fs (some .rowNotFound) true req id now = (.error 401, db, fs) ∧
    delete_paste db fs (some .rowNotFound) true token pid = (401, db, fs) ∧
    new_paste base db fs (some .other) true req id now = (.error 500, db, fs) ∧
    delete_paste db fs (some .other) true token pid = (500, db, fs) := by
  refine ⟨?_, ?_, ?_, ?_, rfl, rfl, rfl, rfl⟩
  · intro h1
    unfold new_paste queryResult
    rw [h1]
    rfl
  · intro h1
    unfold delete_paste queryResult
    rw [h1]
    rfl
  · intro h
    simp only [new_paste, queryResult, authorize]
    rw [if_neg h]
    by_cases h0 : countToken db.tokens req.token = 0
    · rw [if_pos h0, if_pos h0]
    · rw [if_neg h0, if_neg h0]
  · intro h
    simp only [delete_paste, queryResult, authorize]
    rw [if_neg h]
    by_cases h0 : countToken db.tokens token = 0
    · rw [if_pos h0, if_pos h0]
    · rw [if_neg h0, if_neg h0]

/-- C2 (witness): with exactly one matching row, a delete request is
authorized and succeeds (200 with the row and the file gone); with the token
row duplicated, `/new` answers with the 500 branch of the amended mapping. -/
theorem c2_witness :
    delete_paste ⟨["u"], [("j", ⟨1, "g", 5⟩)]⟩ ⟨[("g", [4, 2])]⟩ none true "u" "j" =
      (200, ⟨["u"], []⟩, ⟨[]⟩) ∧
    new_paste "b" ⟨["t", "t"], []⟩ ⟨[]⟩ none true ⟨"t", none⟩ 0 0 =
      (.error (if countToken ["t", "t"] "t" = 0 then 401 else 500),
       ⟨["t", "t"], []⟩, ⟨[]⟩) :=
  ⟨(c2_token_gate "b" ⟨["u"], [("j", ⟨1, "g", 5⟩)]⟩ ⟨[("g", [4, 2])]⟩ ⟨"u", none⟩
      0 0 "u" "j").2.1 (by decide),
   (c2_token_gate "b" ⟨["t", "t"], []⟩ ⟨[]⟩ ⟨"t", none⟩ 0 0 "t" "i").2.2.1 (by decide)⟩

/-! ## C4 -/

/-- C4: a request to `POST /new` or `DELETE /delete` whose token is absent
from the `tokens` table gets 401, and neither the filesystem nor the `pastes`
table changes. -/
theorem c4_absent_token_no_change (base : String) (db : DbState) (fs : FsState)
    (req : NewReq) (id : Nat) (now : Int) (insertOk popOk : Bool) (token pid : String)
    (h1 : req.token ∉ db.tokens) (h2 : token ∉ db.tokens) :
    new_paste base db fs none insertOk req id now = (.error 401, db, fs) ∧
    delete_paste db fs none popOk token pid = (401, db, fs) := by
  have e1 := countToken_eq_zero db.tokens req.token h1
  have e2 := countToken_eq_zero db.tokens token h2
  constructor
  · unfold new_paste queryResult
    rw [e1]
    rfl
  · unfold delete_paste queryResult
    rw [e2]
    rfl

/-- C4 (witness): the unknown token `"WRONG"` against a table holding only
`"t"` leaves both states untouched and yields 401 on both routes. -/
theorem c4_witness :
    new_paste "b" ⟨["t"], []⟩ ⟨[("f", [1])]⟩ none true
        ⟨"WRONG", some (some "a.txt", [.ok [2]])⟩ 0 0 =
      (.error 401, ⟨["t"], []⟩, ⟨[("f", [1])]⟩) ∧
    delete_paste ⟨["t"], []⟩ ⟨[("f", [1])]⟩ none true "WRONG" "i" =
      (401, ⟨["t"], []⟩, ⟨[("f", [1])]⟩) :=
  c4_absent_token_no_change "b" ⟨["t"], []⟩ ⟨[("f", [1])]⟩
    ⟨"WRONG", some (some "a.txt", [.ok [2]])⟩ 0 0 true true "WRONG" "i"
    (by decide) (by decide)

/-! ## C3 -/

/-- C3 (counterexample): the claim says uploads exceeding `2 ^ 32 - 1` bytes
are rejected rather than recorded with an incorrect byte count.  A body of
exactly `2 ^ 32` zero bytes is accepted (200) and its row records
`size = 0` (`total as u32` in main.rs:248 wraps), while the on-disk file has
`2 ^ 32` bytes. -/
theorem c3_counterexample :
    new_paste "b" ⟨["t"], []⟩ ⟨[]⟩ none true
        ⟨"t", some (some "data", [.ok (List.replicate (2 ^ 32) 0)])⟩ 0 0 =
      (.ok ("b/paste/" ++ uuidToString 0),
       ⟨["t"], [(uuidToString 0, ⟨0, uuidToString 0, 0⟩)]⟩,
       fsInsert ⟨[]⟩ (uuidToString 0) (List.replicate (2 ^ 32) 0)) ∧
    (List.replicate (2 ^ 32) (0 : Nat)).length = 2 ^ 32 ∧
    (0 : Nat) ≠ 2 ^ 32 := by
  have hfn : makeFilename (uuidToString 0) "data" = uuidToString 0 := by decide
  have h := new_paste_ok_eq "b" ⟨["t"], []⟩ ⟨[]⟩
    ⟨"t", some (some "data", [.ok (List.replicate (2 ^ 32) 0)])⟩ 0 0 "data"
    [.ok (List.replicate (2 ^ 32) 0)] (List.replicate (2 ^ 32) 0)
    (by decide) rfl (by simp only [copyChunks, List.nil_append])
  rw [h, hfn]
  have hmod : (List.replicate (2 ^ 32) (0 : Nat)).length % 2 ^ 32 = 0 := by
    rw [List.length_replicate, Nat.mod_self]
  refine ⟨?_, by rw [List.length_replicate], by norm_num⟩
  simp only [hmod]
  rfl

/-- C3 (amended): the `size` recorded in the new `pastes` row is the byte
length of the on-disk file reduced mod `2 ^ 32` (the `u32` cast); nothing
rejects oversized payloads, and whenever the body is shorter than `2 ^ 32`
bytes the recorded size equals the on-disk byte length exactly. -/
theorem c3_size_recorded_mod (base : String) (db : DbState) (fs : FsState)
    (req : NewReq) (id : Nat) (now : Int) (name : String) (chunks : List Chunk)
    (B : List Nat)
    (hc : countToken db.tokens req.token = 1)
    (hf : req.field = some (some name, chunks))
    (hB : copyChunks chunks [] = (B, true)) :
    (new_paste base db fs none true req id now).1 =
      .ok (base ++ "/paste/" ++ makeFilename (uuidToString id) name) ∧
    (new_paste base db fs none true req id now).2.1.pastes =
      db.pastes ++ [(uuidToString id,
        ⟨B.length % 2 ^ 32, makeFilename (uuidToString id) name, now⟩)] ∧
    fsLookup (new_paste base db fs none true req id now).2.2
      (makeFilename (uuidToString id) name) = some B ∧
    (B.length < 2 ^ 32 → B.length % 2 ^ 32 = B.length) := by
  rw [new_paste_ok_eq base db fs req id now name chunks B hc hf hB]
  exact ⟨rfl, rfl, fsLookup_fsInsert_self fs _ B,
    fun hlt => Nat.mod_eq_of_lt hlt⟩

/-- C3 (witness): a 3-byte upload is recorded with `size = 3`, matching the
file on disk. -/
theorem c3_witness :
    fsLookup (new_paste "b" ⟨["t"], []⟩ ⟨[]⟩ none true
        ⟨"t", some (some "data", [.ok [7, 8, 9]])⟩ 0 0).2.2
      (makeFilename (uuidToString 0) "data") = some [7, 8, 9] ∧
    ([7, 8, 9] : List Nat).length % 2 ^ 32 = ([7, 8, 9] : List Nat).length :=
  ⟨(c3_size_recorded_mod "b" ⟨["t"], []⟩ ⟨[]⟩ ⟨"t", some (some "data", [.ok [7, 8, 9]])⟩
      0 0 "data" [.ok [7, 8, 9]] [7, 8, 9] (by decide) rfl (by simp [copyChunks])).2.2.1,
   (c3_size_recorded_mod "b" ⟨["t"], []⟩ ⟨[]⟩ ⟨"t", some (some "data", [.ok [7, 8, 9]])⟩
      0 0 "data" [.ok [7, 8, 9]] [7, 8, 9] (by decide) rfl (by simp [copyChunks])).2.2.2
     (by norm_num)⟩

/-! ## C5 -/

/-- C5: for an upload accepted by `POST /new` with body `B`, the 200 response
body is `<base>/paste/<stored filename>`, and fetching that URL against the
resulting storage directory serves exactly `B`, byte for byte. -/
theorem c5_round_trip (base : String) (db : DbState) (fs : FsState)
    (req : NewReq) (id : Nat) (now : Int) (name : String) (chunks : List Chunk)
    (B : List Nat)
    (hc : countToken db.tokens req.token = 1)
    (hf : req.field = some (some name, chunks))
    (hB : copyChunks chunks [] = (B, true)) :
    (new_paste base db fs none true req id now).1 =
      .ok (base ++ "/paste/" ++ makeFilename (uuidToString id) name) ∧
    urlFetch base (new_paste base db fs none true req id now).2.2
      (base ++ "/paste/" ++ makeFilename (uuidToString id) name) = some B := by
  rw [new_paste_ok_eq base db fs req id now name chunks B hc hf hB]
  refine ⟨rfl, ?_⟩
  show urlFetch base (fsInsert fs (makeFilename (uuidToString id) name) B) _ = some B
  have hdata : (base ++ "/paste/" ++ makeFilename (uuidToString id) name).data =
      (base ++ "/paste/").data ++ (makeFilename (uuidToString id) name).data := rfl
  simp only [urlFetch]
  rw [hdata, List.take_left, if_pos rfl, List.drop_left]
  exact fsLookup_fsInsert_self fs _ B

/-- C5 (witness): uploading the two bytes `[104, 105]` as `hello.txt` and
fetching the returned URL gives back `[104, 105]`. -/
theorem c5_witness :
    urlFetch "u" (new_paste "u" ⟨["t"], []⟩ ⟨[]⟩ none true
        ⟨"t", some (some "hello.txt", [.ok [104, 105]])⟩ 0 0).2.2
      ("u" ++ "/paste/" ++ makeFilename (uuidToString 0) "hello.txt") =
      some [104, 105] :=
  (c5_round_trip "u" ⟨["t"], []⟩ ⟨[]⟩ ⟨"t", some (some "hello.txt", [.ok [104, 105]])⟩
    0 0 "hello.txt" [.ok [104, 105]] [104, 105] (by decide) rfl (by simp [copyChunks])).2

/-! ## C8 -/

/-- C8: when the body stream fails partway through the ingest, `POST /new`
answers 500, the partly written file is still present in the storage
directory holding the bytes copied before the failure, and the `pastes` table
is untouched — nothing cleans the destination file up. -/
theorem c8_partial_file_left (base : String) (db : DbState) (fs : FsState)
    (insertOk : Bool) (req : NewReq) (id : Nat) (now : Int) (name : String)
    (chunks : List Chunk) (B : List Nat)
    (hc : countToken db.tokens req.token = 1)
    (hf : req.field = some (some name, chunks))
    (hB : copyChunks chunks [] = (B, false)) :
    (new_paste base db fs none insertOk req id now).1 = .error 500 ∧
    fsLookup (new_paste base db fs none insertOk req id now).2.2
      (makeFilename (uuidToString id) name) = some B ∧
    (new_paste base db fs none insertOk req id now).2.1 = db := by
  rw [new_paste_err_eq base db fs insertOk req id now name chunks B hc hf hB]
  exact ⟨rfl, fsLookup_fsInsert_self fs _ B, rfl⟩

/-- C8 (witness): a stream that yields one byte and then a transport error
leaves a one-byte file behind and answers 500. -/
theorem c8_witness :
    (new_paste "b" ⟨["t"], []⟩ ⟨[]⟩ none true
        ⟨"t", some (some "data", [.ok [1], .error ()])⟩ 0 0).1 = .error 500 ∧
    fsLookup (new_paste "b" ⟨["t"], []⟩ ⟨[]⟩ none true
        ⟨"t", some (some "data", [.ok [1], .error ()])⟩ 0 0).2.2
      (makeFilename (uuidToString 0) "data") = some [1] ∧
    (new_paste "b" ⟨["t"], []⟩ ⟨[]⟩ none true
        ⟨"t", some (some "data", [.ok [1], .error ()])⟩ 0 0).2.1 = ⟨["t"], []⟩ :=
  c8_partial_file_left "b" ⟨["t"], []⟩ ⟨[]⟩ true
    ⟨"t", some (some "data", [.ok [1], .error ()])⟩ 0 0 "data"
    [.ok [1], .error ()] [1] (by decide) rfl (by simp [copyChunks])

/-! ## UUID rendering lemmas -/

theorem length_uuidHexDigits (u : Nat) : (uuidHexDigits u).length = 32 := by
  unfold uuidHexDigits
  rw [List.length_map, List.length_range]

theorem hexDigitChar_mem_of_lt (n : Nat) (h : n < 16) :
    ("0123456789abcdef".data).contains (hexDigitChar n) = true := by
  interval_cases n <;> decide

theorem mem_uuidHexDigits (u : Nat) (c : Char) (h : c ∈ uuidHexDigits u) :
    ("0123456789abcdef".data).contains c = true := by
  unfold uuidHexDigits at h
  rw [List.mem_map] at h
  obtain ⟨i, -, rfl⟩ := h
  exact hexDigitChar_mem_of_lt _ (Nat.mod_lt _ (by norm_num))

theorem uuidToString_parts (u : Nat) :
    ∃ a b c d e : List Char,
      (uuidToString u).data = a ++ '-' :: b ++ '-' :: c ++ '-' :: d ++ '-' :: e ∧
      a.length = 8 ∧ b.length = 4 ∧ c.length = 4 ∧ d.length = 4 ∧ e.length = 12 ∧
      ∀ ch, (ch ∈ a ∨ ch ∈ b ∨ ch ∈ c ∨ ch ∈ d ∨ ch ∈ e) →
        ("0123456789abcdef".data).contains ch = true := by
  have hlen := length_uuidHexDigits u
  refine ⟨(uuidHexDigits u).take 8, ((uuidHexDigits u).drop 8).take 4,
    ((uuidHexDigits u).drop 12).take 4, ((uuidHexDigits u).drop 16).take 4,
    (uuidHexDigits u).drop 20, rfl, ?_, ?_, ?_, ?_, ?_, ?_⟩
  · rw [List.length_take, hlen]; decide
  · rw [List.length_take, List.length_drop, hlen]; decide
  · rw [List.length_take, List.length_drop, hlen]; decide
  · rw [List.length_take, List.length_drop, hlen]; decide
  · rw [List.length_drop, hlen]
  · rintro ch (h | h | h | h | h)
    · exact mem_uuidHexDigits u ch (List.take_subset _ _ h)
    · exact mem_uuidHexDigits u ch (List.drop_subset _ _ (List.take_subset _ _ h))
    · exact mem_uuidHexDigits u ch (List.drop_subset _ _ (List.take_subset _ _ h))
    · exact mem_uuidHexDigits u ch (List.drop_subset _ _ (List.take_subset _ _ h))
    · exact mem_uuidHexDigits u ch (List.drop_subset _ _ h)

theorem uuidToString_length (u : Nat) : (uuidToString u).length = 36 := by
  have hlen := length_uuidHexDigits u
  show (uuidToString u).data.length = 36
  simp only [uuidToString, List.length_append, List.length_cons, List.length_take,
    List.length_drop, hlen]
  decide

theorem uuid_no_dot (u : Nat) : '.' ∉ (uuidToString u).data := by
  intro hmem
  obtain ⟨a, b, c, d, e, hdata, -, -, -, -, -, hhex⟩ := uuidToString_parts u
  rw [hdata] at hmem
  have hdot : ¬(("0123456789abcdef".data).contains '.' = true) := by decide
  have hne : ('.' : Char) ≠ '-' := by decide
  rcases List.mem_append.mp hmem with h | h
  · rcases List.mem_append.mp h with h | h
    · rcases List.mem_append.mp h with h | h
      · rcases List.mem_append.mp h with h | h
        · exact hdot (hhex '.' (Or.inl h))
        · rcases List.mem_cons.mp h with h | h
          · exact hne h
          · exact hdot (hhex '.' (Or.inr (Or.inl h)))
      · rcases List.mem_cons.mp h with h | h
        · exact hne h
        · exact hdot (hhex '.' (Or.inr (Or.inr (Or.inl h))))
    · rcases List.mem_cons.mp h with h | h
      · exact hne h
      · exact hdot (hhex '.' (Or.inr (Or.inr (Or.inr (Or.inl h)))))
  · rcases List.mem_cons.mp h with h | h
    · exact hne h
    · exact hdot (hhex '.' (Or.inr (Or.inr (Or.inr (Or.inr h)))))

theorem lastDotIdx_eq_none (l : List Char) (h : '.' ∉ l) : lastDotIdx l = none := by
  induction l with
  | nil => rfl
  | cons c cs ih =>
    have hc : ¬(c = '.') := fun e => h (by rw [e]; exact List.mem_cons_self _ _)
    have hcs : lastDotIdx cs = none := ih (fun m => h (List.mem_cons_of_mem _ m))
    simp only [lastDotIdx, hcs]
    rw [if_neg hc]

/-! ## C10 -/

/-- C10: for an upload whose basename begins with a dot and contains no other
dot (for example ".gitignore"), `Path::extension` yields `None` — a leading
dot does not introduce an extension — so `POST /new` stores the file under
the bare UUID rendering, which contains no dot. -/
theorem c10_dotfile_no_extension (u : Nat) (name : String) (rest : List Char)
    (hb : fileName name.data = some ('.' :: rest)) (hd : '.' ∉ rest) :
    makeFilename (uuidToString u) name = uuidToString u ∧
    '.' ∉ (makeFilename (uuidToString u) name).data := by
  have hne : ('.' :: rest) ≠ ['.', '.'] := by
    intro e
    injection e with e1 e2
    exact hd (by rw [e2]; exact List.mem_cons_self _ _)
  have hext : pathExtension name.data = none := by
    unfold pathExtension
    rw [hb]
    show splitFileAtDot ('.' :: rest) = none
    unfold splitFileAtDot
    rw [if_neg hne]
    have hrest : lastDotIdx (('.' :: rest).drop 1) = none := lastDotIdx_eq_none rest hd
    rw [hrest]
  have hmk : makeFilename (uuidToString u) name = uuidToString u := by
    unfold makeFilename
    rw [hext]
  exact ⟨hmk, by rw [hmk]; exact uuid_no_dot u⟩

/-- C10 (witness): uploading as ".gitignore" stores the bare dotless UUID. -/
theorem c10_witness :
    makeFilename (uuidToString 0) ".gitignore" = uuidToString 0 ∧
    '.' ∉ (makeFilename (uuidToString 0) ".gitignore").data :=
  c10_dotfile_no_extension 0 ".gitignore" "gitignore".data (by decide) (by decide)

/-! ## C6 -/

/-- C6 (counterexample): the upload name ".gitignore" has the characters
"gitignore" after the final dot of its basename, so the claim requires the
stored filename to end in ".gitignore"; the code's `Path::extension` returns
`None` for it, and the stored filename is the bare UUID with no dot at all. -/
theorem c6_counterexample :
    specTrailingExt ".gitignore" = some "gitignore" ∧
    makeFilename "00000000-0000-0000-0000-000000000000" ".gitignore" =
      "00000000-0000-0000-0000-000000000000" ∧
    '.' ∉ (makeFilename "00000000-0000-0000-0000-000000000000" ".gitignore").data :=
  ⟨by decide, by decide, by decide⟩

/-- C6 (amended): the stored filename is `<id>.<e>` when `Path::extension`
yields `e` for the client's upload name (so in particular it begins with
`<id>` and ends with `.<e>`), and the bare `<id>` with no dot otherwise;
`<id>` is the canonical 36-character lowercase-hex hyphenated 8-4-4-4-12
rendering of the UUID returned to the client.  The claim's reading of the
extension as "the characters after the final '.' in the basename" is amended
to `Path::extension` semantics, which treat a bare dotfile name as having no
extension. -/
theorem c6_filename_shape (u : Nat) (name : String) :
    ((uuidToString u).length = 36 ∧
     ∃ a b c d e : List Char,
       (uuidToString u).data = a ++ '-' :: b ++ '-' :: c ++ '-' :: d ++ '-' :: e ∧
       a.length = 8 ∧ b.length = 4 ∧ c.length = 4 ∧ d.length = 4 ∧ e.length = 12 ∧
       ∀ ch, (ch ∈ a ∨ ch ∈ b ∨ ch ∈ c ∨ ch ∈ d ∨ ch ∈ e) →
         ("0123456789abcdef".data).contains ch = true) ∧
    (∀ e, pathExtension name.data = some e →
      (makeFilename (uuidToString u) name).data =
        (uuidToString u).data ++ '.' :: e) ∧
    (pathExtension name.data = none →
      makeFilename (uuidToString u) name = uuidToString u ∧
      '.' ∉ (makeFilename (uuidToString u) name).data) := by
  refine ⟨⟨uuidToString_length u, uuidToString_parts u⟩, ?_, ?_⟩
  · intro e he
    simp only [makeFilename, he]
    show ((uuidToString u).data ++ ['.']) ++ e = (uuidToString u).data ++ '.' :: e
    rw [List.append_assoc]
    rfl
  · intro he
    have hmk : makeFilename (uuidToString u) name = uuidToString u := by
      unfold makeFilename
      rw [he]
    exact ⟨hmk, by rw [hmk]; exact uuid_no_dot u⟩

/-- C6 (witness): uploading as "hello.txt" stores `<id>.txt`. -/
theorem c6_witness :
    (makeFilename (uuidToString 0) "hello.txt").data =
      (uuidToString 0).data ++ '.' :: "txt".data :=
  (c6_filename_shape 0 "hello.txt").2.1 "txt".data (by decide)

/-! ## C7 -/

/-- C7: with a valid token, `DELETE /delete` removes the paste row and learns
its filename in one atomic delete-returning round-trip, and only afterwards
unlinks the file: no matching row gives 404 with nothing changed; any other
storage error gives 500 with nothing changed; an unlink failure gives 500
with the row already gone and the filesystem untouched; success gives 200
(empty body) with both the row and the file gone. -/
theorem c7_delete_semantics (db : DbState) (fs : FsState) (token pid : String)
    (hc : countToken db.tokens token = 1) :
    (pop_paste_filename db.pastes pid = none →
      delete_paste db fs none true token pid = (404, db, fs)) ∧
    delete_paste db fs none false token pid = (500, db, fs) ∧
    (∀ fn rest, pop_paste_filename db.pastes pid = some (fn, rest) →
      (removeFile fs fn = .error () →
        delete_paste db fs none true token pid =
          (500, { db with pastes := rest }, fs)) ∧
      (∀ fs2, removeFile fs fn = .ok fs2 →
        delete_paste db fs none true token pid =
          (200, { db with pastes := rest }, fs2))) := by
  have hauth : authorize (queryResult none (countToken db.tokens token)) = none := by
    rw [hc]; rfl
  refine ⟨?_, ?_, ?_⟩
  · intro hpop
    simp [delete_paste, hauth, hpop]
  · simp [delete_paste, hauth]
  · intro fn rest hpop
    constructor
    · intro hrem
      simp [delete_paste, hauth, hpop, hrem]
    · intro fs2 hrem
      simp [delete_paste, hauth, hpop, hrem]

/-- C7 (witness): deleting the only paste `"i"` removes its row and unlinks
its file `"f"`, answering 200. -/
theorem c7_witness :
    delete_paste ⟨["t"], [("i", ⟨3, "f", 0⟩)]⟩ ⟨[("f", [9])]⟩ none true "t" "i" =
      (200, ⟨["t"], []⟩, ⟨[]⟩) :=
  ((c7_delete_semantics ⟨["t"], [("i", ⟨3, "f", 0⟩)]⟩ ⟨[("f", [9])]⟩ "t" "i"
      (by decide)).2.2 "f" [] (by decide)).2 ⟨[]⟩ rfl

/-! ## C9 -/

theorem c9_step_closed :
    ∀ c ∈ c9reach,
      stepConc "t" "i" c true ∈ c9reach ∧ stepConc "t" "i" c false ∈ c9reach := by
  decide

theorem c9_run_mem (s : List Bool) :
    ∀ c ∈ c9reach, runConc "t" "i" c s ∈ c9reach := by
  induction s with
  | nil => intro c hc; exact hc
  | cons b bs ih =>
    intro c hc
    have hstep := c9_step_closed c hc
    cases b
    · exact ih _ hstep.2
    · exact ih _ hstep.1

/-- C9: when two delete requests with the valid token race on the same
existing paste id, then under every interleaving of their atomic database and
filesystem steps, if both finish, one answers 200 and the other 404 — the
single-round-trip `DELETE … RETURNING` can succeed for at most one of
them. -/
theorem c9_concurrent_delete (s : List Bool) (a b : Nat)
    (h1 : (runConc "t" "i" c9init s).t1 = .done a)
    (h2 : (runConc "t" "i" c9init s).t2 = .done b) :
    (a = 200 ∧ b = 404) ∨ (a = 404 ∧ b = 200) := by
  have hm : runConc "t" "i" c9init s ∈ c9reach := c9_run_mem s c9init (by decide)
  generalize hgen : runConc "t" "i" c9init s = r at h1 h2 hm
  fin_cases hm <;> simp_all

/-- C9 (witness): under the schedule that runs request 1 to completion first,
request 1 finishes with 200 and request 2 with 404. -/
theorem c9_witness :
    (runConc "t" "i" c9init [true, true, true, false, false]).t1 = .done 200 ∧
    (runConc "t" "i" c9init [true, true, true, false, false]).t2 = .done 404 ∧
    ((200 = 200 ∧ 404 = 404) ∨ ((200 : Nat) = 404 ∧ (404 : Nat) = 200)) :=
  ⟨by decide, by decide,
   c9_concurrent_delete [true, true, true, false, false] 200 404
     (by decide) (by decide)⟩
